import Mathlib

/-!
Verification of the POPSigner SDK error taxonomy, a shallow embedding of
src/sdk-rust/src/error.rs. The Rust enum POPSignerError and its three
classification methods (is_retryable, is_auth_error, status_code) are
translated directly; the Display rendering generated by the thiserror
error attributes is made explicit as the function render, and the
From conversion for reqwest::Error generated by the from attribute on the
Http variant is made explicit as from_reqwest_error.

Machine integers: the Rust fields status_code (u16) and failed/total
(usize) only ever flow through comparisons and decimal formatting, never
wrapping arithmetic, so they are embedded as Nat; where a claim speaks of
the u16 range it is stated as an explicit bound of 65535.
-/

namespace POPSigner

/-- The opaque transport-layer error type (reqwest::Error). The SDK never
inspects it: the only use is its Display rendering, interpolated by the
thiserror attribute on the Http variant, so it is embedded as a value
carrying its rendered text. -/
structure ReqwestError where
  display : String
deriving DecidableEq

/-- The enum POPSignerError from src/sdk-rust/src/error.rs, one Lean
constructor per Rust variant with the same fields. The spec calls the
Http variant Transport; the source names it Http. -/
inductive POPSignerError where
  | Api (code : String) (message : String) (status_code : Nat)
  | Http (cause : ReqwestError)
  | Decode (detail : String)
  | Unauthorized
  | RateLimited
  | QuotaExceeded (detail : String)
  | KeyNotFound (id : String)
  | NamespaceNotFound (id : String)
  | OrgNotFound (id : String)
  | InvalidRequest (detail : String)
  | SigningError (detail : String)
  | BatchPartialFailure (failed : Nat) (total : Nat)
deriving DecidableEq

namespace POPSignerError

/-- POPSignerError::is_retryable (error.rs lines 77-84): RateLimited and
Http are retryable, Api is retryable iff its status code is at least 500,
every other variant is not. -/
def is_retryable : POPSignerError → Bool
  | .RateLimited => true
  | .Http _ => true
  | .Api _ _ status_code => decide (500 ≤ status_code)
  | _ => false

/-- POPSignerError::is_auth_error (error.rs lines 87-94): true for
Unauthorized and for Api whose status code is the literal 401 or 403. -/
def is_auth_error : POPSignerError → Bool
  | .Unauthorized => true
  | .Api _ _ status_code => status_code == 401 || status_code == 403
  | _ => false

/-- POPSignerError::status_code (error.rs lines 97-104): the carried
status for Api, 401 for Unauthorized, 429 for RateLimited, none
otherwise. -/
def status_code : POPSignerError → Option Nat
  | .Api _ _ status_code => some status_code
  | .Unauthorized => some 401
  | .RateLimited => some 429
  | _ => none

/-- The Display implementation generated by the thiserror error attribute
on each variant (error.rs lines 12-73). Numeric fields are formatted in
decimal, as Rust Display does for u16 and usize, which is Nat.repr. -/
def render : POPSignerError → String
  | .Api code message status_code =>
      "API error (" ++ Nat.repr status_code ++ "): [" ++ code ++ "] " ++ message
  | .Http cause => "HTTP error: " ++ cause.display
  | .Decode detail => "Decode error: " ++ detail
  | .Unauthorized => "Unauthorized: invalid API key"
  | .RateLimited => "Rate limit exceeded"
  | .QuotaExceeded detail => "Quota exceeded: " ++ detail
  | .KeyNotFound id => "Key not found: " ++ id
  | .NamespaceNotFound id => "Namespace not found: " ++ id
  | .OrgNotFound id => "Organization not found: " ++ id
  | .InvalidRequest detail => "Invalid request: " ++ detail
  | .SigningError detail => "Signing error: " ++ detail
  | .BatchPartialFailure failed total =>
      "Batch operation had " ++ Nat.repr failed ++ " failures out of "
        ++ Nat.repr total ++ " requests"

/-- The From conversion for reqwest::Error generated by the from
attribute on the Http variant (error.rs lines 25-27): it wraps the cause
in Http unchanged. -/
def from_reqwest_error (e : ReqwestError) : POPSignerError := .Http e

/-- Modelled from the spec: the invariant of section 3 that a
BatchPartialFailure value has 0 < failed and failed ≤ total, stated as a
predicate on error values so that the claim that every constructible
value satisfies it can be settled against the source type. -/
def batch_invariant : POPSignerError → Bool
  | .BatchPartialFailure failed total => decide (0 < failed ∧ failed ≤ total)
  | _ => true

/-- Modelled from the spec: the invariant of section 3 that an Api value
carries a status code in the HTTP range 100 to 599, stated as a predicate
on error values so that the claim that every constructible value
satisfies it can be settled against the source type. -/
def api_status_in_http_range : POPSignerError → Bool
  | .Api _ _ status_code => decide (100 ≤ status_code ∧ status_code ≤ 599)
  | _ => true

end POPSignerError

end POPSigner

namespace POPSigner

open POPSignerError

/-- C1: is_retryable is true exactly for RateLimited, Http with any
cause, and Api with status code at least 500; it is false for Api below
500 and for every other variant, with the boundary at 500: Api at 499 is
not retryable and Api at 500 is. -/
theorem C1_is_retryable_exact :
    (∀ e : POPSignerError, is_retryable e = true ↔
      (e = .RateLimited ∨ (∃ c, e = .Http c) ∨
        ∃ code msg sc, e = .Api code msg sc ∧ 500 ≤ sc)) ∧
    is_retryable (.Api "err" "msg" 499) = false ∧
    is_retryable (.Api "err" "msg" 500) = true := by
  refine ⟨fun e => ?_, rfl, rfl⟩
  cases e <;> simp [is_retryable]
  constructor
  · intro h
    exact ⟨_, _, _, ⟨rfl, rfl, rfl⟩, h⟩
  · rintro ⟨c, m, s, ⟨rfl, rfl, rfl⟩, h⟩
    exact h

/-- C2: is_auth_error is true exactly for Unauthorized and for Api with
status code 401 or 403, whatever the code and message fields are; it is
false for every other value. -/
theorem C2_is_auth_error_exact (e : POPSignerError) :
    is_auth_error e = true ↔
      (e = .Unauthorized ∨
        ∃ code msg, e = .Api code msg 401 ∨ e = .Api code msg 403) := by
  cases e <;> simp [is_auth_error]
  constructor
  · rintro (rfl | rfl)
    · exact ⟨_, _, Or.inl ⟨rfl, rfl, rfl⟩⟩
    · exact ⟨_, _, Or.inr ⟨rfl, rfl, rfl⟩⟩
  · rintro ⟨c, m, (⟨rfl, rfl, rfl⟩ | ⟨rfl, rfl, rfl⟩)⟩
    · exact Or.inl rfl
    · exact Or.inr rfl

/-- C3: status_code returns the carried status for Api, 401 for
Unauthorized, 429 for RateLimited, and none for every other variant. -/
theorem C3_status_code_exact :
    (∀ code msg sc, status_code (.Api code msg sc) = some sc) ∧
    status_code .Unauthorized = some 401 ∧
    status_code .RateLimited = some 429 ∧
    (∀ c, status_code (.Http c) = none) ∧
    (∀ d, status_code (.Decode d) = none) ∧
    (∀ d, status_code (.QuotaExceeded d) = none) ∧
    (∀ i, status_code (.KeyNotFound i) = none) ∧
    (∀ i, status_code (.NamespaceNotFound i) = none) ∧
    (∀ i, status_code (.OrgNotFound i) = none) ∧
    (∀ d, status_code (.InvalidRequest d) = none) ∧
    (∀ d, status_code (.SigningError d) = none) ∧
    (∀ f t, status_code (.BatchPartialFailure f t) = none) := by
  refine ⟨fun _ _ _ => rfl, rfl, rfl, fun _ => rfl, fun _ => rfl, fun _ => rfl,
    fun _ => rfl, fun _ => rfl, fun _ => rfl, fun _ => rfl, fun _ => rfl,
    fun _ _ => rfl⟩

/-- C4: for all field values, render produces exactly the literal
per-variant format strings of section 4.1, byte for byte; in particular
the Api example of section 8 renders as required. -/
theorem C4_render_exact :
    (∀ code message sc, render (.Api code message sc) =
        "API error (" ++ Nat.repr sc ++ "): [" ++ code ++ "] " ++ message) ∧
    (∀ d, render (.Decode d) = "Decode error: " ++ d) ∧
    render .Unauthorized = "Unauthorized: invalid API key" ∧
    render .RateLimited = "Rate limit exceeded" ∧
    (∀ d, render (.QuotaExceeded d) = "Quota exceeded: " ++ d) ∧
    (∀ i, render (.KeyNotFound i) = "Key not found: " ++ i) ∧
    (∀ i, render (.NamespaceNotFound i) = "Namespace not found: " ++ i) ∧
    (∀ i, render (.OrgNotFound i) = "Organization not found: " ++ i) ∧
    (∀ d, render (.InvalidRequest d) = "Invalid request: " ++ d) ∧
    (∀ d, render (.SigningError d) = "Signing error: " ++ d) ∧
    (∀ f t, render (.BatchPartialFailure f t) =
        "Batch operation had " ++ Nat.repr f ++ " failures out of "
          ++ Nat.repr t ++ " requests") ∧
    render (.Api "key_not_found" "Key does not exist" 404) =
      "API error (404): [key_not_found] Key does not exist" := by
  refine ⟨fun _ _ _ => rfl, fun _ => rfl, rfl, rfl, fun _ => rfl, fun _ => rfl,
    fun _ => rfl, fun _ => rfl, fun _ => rfl, fun _ => rfl, fun _ _ => rfl, ?_⟩
  decide

/-- C5 counterexample: the source enum places no constraint on the
BatchPartialFailure fields, so the values with failed equal to 0 out of 5
and with 6 failed out of 5 are both constructible, and both violate the
claimed invariant. -/
theorem C5_batch_invariant_counterexample :
    batch_invariant (POPSignerError.BatchPartialFailure 0 5) = false ∧
    batch_invariant (POPSignerError.BatchPartialFailure 6 5) = false := by
  exact ⟨rfl, rfl⟩

/-- C5 amended: construction of BatchPartialFailure is unrestricted; for
every failed and total pair, including failed equal to 0 and failed
greater than total, the value is a well-formed error that the code
renders by the normal format and classifies as neither retryable nor an
auth error. -/
theorem C5_batch_unrestricted (failed total : Nat) :
    ∃ e : POPSignerError, e = .BatchPartialFailure failed total ∧
      render e = "Batch operation had " ++ Nat.repr failed
        ++ " failures out of " ++ Nat.repr total ++ " requests" ∧
      is_retryable e = false ∧ is_auth_error e = false := by
  exact ⟨.BatchPartialFailure failed total, rfl, rfl, rfl, rfl⟩

/-- C6 counterexample: the source places no range check on the Api status
code beyond the u16 type, so the value with status code 600, a valid u16
outside the claimed 100 to 599 range, is constructible and violates the
claimed invariant. -/
theorem C6_api_range_counterexample :
    api_status_in_http_range (POPSignerError.Api "internal" "boom" 600) = false := by
  exact rfl

/-- C6 amended: a constructible Api value may carry any u16 status code;
the range 100 to 599 is not enforced, and the carried value is returned
unchanged by status_code and formatted unchanged by render. -/
theorem C6_api_status_unrestricted (code msg : String) (sc : Nat)
    (h : sc ≤ 65535) :
    status_code (.Api code msg sc) = some sc ∧
    render (.Api code msg sc) =
      "API error (" ++ Nat.repr sc ++ "): [" ++ code ++ "] " ++ msg := by
  exact ⟨rfl, rfl⟩

/-- C6 witness: the amended statement instantiated at the out-of-range
but constructible status code 600. -/
theorem C6_api_status_unrestricted_witness :
    (600 : Nat) ≤ 65535 ∧
    (status_code (.Api "internal" "boom" 600) = some 600 ∧
      render (.Api "internal" "boom" 600) =
        "API error (" ++ Nat.repr 600 ++ "): [" ++ "internal" ++ "] " ++ "boom") := by
  exact ⟨by decide, C6_api_status_unrestricted "internal" "boom" 600 (by decide)⟩

/-- C7: rendering a wrapped transport error yields the literal prefix
followed by the rendered text of the cause, so the rendering of the
cause is a substring (here a suffix) of the outer rendering. -/
theorem C7_transport_render_contains_cause (c : ReqwestError) :
    render (.Http c) = "HTTP error: " ++ c.display ∧
    ∃ front, render (.Http c) = front ++ c.display := by
  exact ⟨rfl, "HTTP error: ", rfl⟩

/-- C8: the generated conversion from the transport error type always
produces the Http variant wrapping the cause value unchanged, never a
different variant and never a string rendering of the cause. -/
theorem C8_from_transport_preserves_cause (e : ReqwestError) :
    from_reqwest_error e = POPSignerError.Http e := by
  exact rfl

/-- C9: no error value is both retryable and an auth error: the auth
errors are Unauthorized and Api with status 401 or 403, all of which fall
outside the retryable set of RateLimited, Http, and Api at 500 or
above. -/
theorem C9_retryable_auth_disjoint (e : POPSignerError) :
    (is_retryable e && is_auth_error e) = false := by
  cases e <;> simp [is_retryable, is_auth_error]
  omega

/-- C10: every auth error has an associated HTTP status code, namely 401
or 403: Unauthorized maps to 401 and the Api auth cases carry their own
401 or 403. -/
theorem C10_auth_has_status (e : POPSignerError)
    (h : is_auth_error e = true) :
    status_code e = some 401 ∨ status_code e = some 403 := by
  cases e <;> simp_all [is_auth_error, status_code]

/-- C10 witness: the statement instantiated at Unauthorized, which is an
auth error and whose status code is 401. -/
theorem C10_auth_has_status_witness :
    is_auth_error POPSignerError.Unauthorized = true ∧
    (status_code POPSignerError.Unauthorized = some 401 ∨
      status_code POPSignerError.Unauthorized = some 403) := by
  exact ⟨rfl, C10_auth_has_status POPSignerError.Unauthorized rfl⟩

end POPSigner
